import Mathlib

/-!
Verification development for the `Base` model of
`src/backend/service/models.py`: a Cloudant-backed persistence layer with
environment-driven credential resolution, an HTTPError retry decorator, and
CRUD plus finder operations.

The embedding is shallow: Python dictionaries become association lists,
the remote document store becomes an association list from id to document,
Python exceptions become an `Except` error type, and the `retry` decorator
becomes an explicit attempt-counting combinator.  Remote I/O (the Cloudant
client) is represented either by a pure store value or, where a claim is
about failure behaviour, by an attempt-indexed oracle.
-/

namespace Models

/-- A Python value as it appears in the documents this layer handles:
a string, a number, or Python `None`. -/
inductive Val where
  | vstr (s : String)
  | vnum (n : Nat)
  | vnone
  deriving DecidableEq, Repr

/-- Python truthiness for `Val`: `None`, the empty string and `0` are falsy;
everything else is truthy.  Used by `serialize` (`if self.id:`) and
`deserialize` (`if not self.id`). -/
def Val.truthy : Val → Bool
  | .vnone => false
  | .vstr s => !s.isEmpty
  | .vnum n => n != 0

/-- A document: a Python dict with string keys, embedded as an association
list (keys are unique in every document this layer builds or stores). -/
abbrev Doc := List (String × Val)

/-- Dictionary access `d[k]` as an optional lookup (first binding of `k` in `d`). -/
def lookupDoc (d : Doc) (k : String) : Option Val :=
  (d.find? (fun kv => kv.1 == k)).map (fun kv => kv.2)

/-- Python `dict.update`: every key of `patch` overwrites or extends `d`;
keys of `d` not in `patch` are kept. -/
def dictUpdate (d patch : Doc) : Doc :=
  (d.map (fun kv =>
    match lookupDoc patch kv.1 with
    | some v => (kv.1, v)
    | none => kv))
  ++ patch.filter (fun kv => (lookupDoc d kv.1).isNone)

/-- The remote database as a map from document id to document,
embedded as an association list. -/
abbrev Store := List (String × Doc)

/-- Store access `database[record_id]` as an optional lookup. -/
def lookupStore (st : Store) (k : String) : Option Doc :=
  (st.find? (fun e => e.1 == k)).map (fun e => e.2)

/-- Write document `d` under id `k` (what `document.save()` does). -/
def storeSet (st : Store) (k : String) (d : Doc) : Store :=
  (k, d) :: st.filter (fun e => !(e.1 == k))

/-- Remove the document stored under id `k` (what `document.delete()` does). -/
def storeRemove (st : Store) (k : String) : Store :=
  st.filter (fun e => !(e.1 == k))

/-- The exceptions raised or propagated by this layer.
`httpError` is `requests.HTTPError`, the one class the `retry` decorator
recognises; `otherError` stands for any other (non-retryable) exception
coming out of a store call. -/
inductive PyErr where
  | httpError
  | otherError
  | dataValidationError (msg : String)
  | databaseConnectionError (msg : String)
  deriving DecidableEq, Repr

/-- Failures a raw store call can raise: the retryable transport class
(`requests.HTTPError`) or anything else. -/
inductive StoreFail where
  | httpError
  | otherError
  deriving DecidableEq, Repr

/-- Embed a store failure into the layer's exception type. -/
def StoreFail.toPyErr : StoreFail → PyErr
  | .httpError => .httpError
  | .otherError => .otherError

/-- Is this exception the retryable transport class? -/
def PyErr.isHttp : PyErr → Bool
  | .httpError => true
  | _ => false

/-- The in-memory record: `Base.__init__` sets `self.id = None` and
`self.name = name`.  Both attributes are arbitrary Python values. -/
structure Base where
  id : Val
  name : Val
  deriving DecidableEq, Repr

/-- A record as freshly constructed by `Base()`. -/
def freshBase : Base := { id := .vnone, name := .vnone }

/-- Embedding of `Base.serialize`: `{"name": self.name}` plus `"_id": self.id` exactly
when `self.id` is truthy. -/
def serialize (r : Base) : Doc :=
  ("name", r.name) :: (if r.id.truthy then [("_id", r.id)] else [])

/-- Embedding of `Base.deserialize(data)`: sets `self.name = data["name"]`; a missing
key (KeyError) or a non-mapping `data` such as `None` (TypeError) is
re-raised as `DataValidationError`.  Then, if `self.id` is falsy and the
data carries `"_id"`, adopts it.  Returns the mutated record (`return self`). -/
def deserialize (r : Base) (data : Option Doc) : Except PyErr Base :=
  match data with
  | none =>
    .error (.dataValidationError "Invalid record: body of request contained bad or no data")
  | some d =>
    match lookupDoc d "name" with
    | none => .error (.dataValidationError "Invalid record: missing name")
    | some v =>
      let r1 : Base := { r with name := v }
      .ok (if !r1.id.truthy then
             match lookupDoc d "_id" with
             | some i => { r1 with id := i }
             | none => r1
           else r1)

/-! ## The retry decorator -/

/-- Default of the `RETRY_COUNT` environment variable (`"10"`): the total
number of attempts the `retry` decorator makes.  (`RETRY_DELAY` and
`RETRY_BACKOFF` only shape the sleep between attempts and are not part of
the value-level semantics modelled here.) -/
def RETRY_COUNT : Nat := 10

/-- The `retry` decorator from the `retry` package, as used here:
`retry(HTTPError, delay, backoff, tries, logger)`.  `retryRun p f start tries`
calls the attempt-indexed body `f` at most `tries` times, starting at
attempt index `start`; a failure satisfying `p` with attempts remaining
triggers another call, any other failure (and an exhausted last failure)
is re-raised.  Returns the outcome together with the index one past the
last attempt made, so with `start = 0` the second component is the number
of calls to `f`. -/
def retryRun {ε α : Type} (p : ε → Bool) (f : Nat → Except ε α) (start : Nat) :
    Nat → Except ε α × Nat
  | 0 => (f start, start + 1)
  | 1 => (f start, start + 1)
  | n + 2 =>
    match f start with
    | .ok a => (.ok a, start + 1)
    | .error e =>
      if p e then retryRun p f (start + 1) (n + 1) else (.error e, start + 1)

/-! ## Instance-level CRUD -/

/-- Result of `database.create_document(...)`: a document handle exposing
`exists()` and `["_id"]`. -/
structure CreatedDoc where
  docExists : Bool
  docId : String
  deriving DecidableEq, Repr

/-- One attempt of the body of `Base.create`, given the outcome `res` of
this attempt's `create_document` call: raise `DataValidationError` when
`self.name is None`; catch `HTTPError` from the store call and return with
the record untouched; let any other store exception propagate; on success
adopt the store-assigned `_id` when the document exists.  Errors carry the
record state at raise time (Python raising leaves `self` unmutated). -/
def createStep (r : Base) (res : Except StoreFail CreatedDoc) :
    Except (PyErr × Base) Base :=
  if r.name = .vnone then
    .error (.dataValidationError "name attribute is not set", r)
  else
    match res with
    | .error .httpError => .ok r
    | .error .otherError => .error (.otherError, r)
    | .ok d => if d.docExists then .ok { r with id := .vstr d.docId } else .ok r

/-- Embedding of `Base.create` with its `@retry(HTTPError, ..., tries=RETRY_COUNT)`
decorator, the store call represented by an attempt-indexed oracle. -/
def createRetried (oracle : Nat → Except StoreFail CreatedDoc) (r : Base) :
    Except (PyErr × Base) Base × Nat :=
  retryRun (fun e => e.1.isHttp) (fun k => createStep r (oracle k)) 0 RETRY_COUNT

/-- The fetch `self.database[self.id]` for a pure store: only a string id can match a
stored key; a falsy or non-string id finds nothing (the KeyError path). -/
def lookupStoreV (st : Store) (v : Val) : Option Doc :=
  match v with
  | .vstr s => lookupStore st s
  | _ => none

/-- The string under a record's id when it is one (the key `save()` and
`delete()` address; only reached when the lookup succeeded, i.e. the id
was a string). -/
def keyString : Val → String
  | .vstr s => s
  | _ => ""

/-- Embedding of `Base.update` over a pure store: fetch `database[self.id]`, treating
KeyError as `document = None`; if the document is falsy (absent or empty
dict) do nothing; otherwise `document.update(self.serialize())` then
`document.save()`.  Returns the new store and the record (`self`) as the
method leaves it. -/
def update (st : Store) (r : Base) : Store × Base :=
  (match lookupStoreV st r.id with
   | none => st
   | some d =>
     if d.isEmpty then st
     else storeSet st (keyString r.id) (dictUpdate d (serialize r)), r)

/-- Embedding of `Base.delete` over a pure store: fetch `database[self.id]`, treating
KeyError as `document = None`; if the document is truthy, `document.delete()`;
otherwise do nothing. -/
def delete (st : Store) (r : Base) : Store × Base :=
  (match lookupStoreV st r.id with
   | none => st
   | some d => if d.isEmpty then st else storeRemove st (keyString r.id), r)

/-- One attempt of the body of `Base.update`, with the
`document = self.database[self.id]` fetch represented by its outcome `res`:
`.ok none` is the caught-KeyError path (absent id), a store failure
propagates out of the `try` (only KeyError is caught there). -/
def updateStep (res : Except StoreFail (Option Doc)) (key : String) (ser : Doc)
    (st : Store) : Except PyErr Store :=
  match res with
  | .error f => .error f.toPyErr
  | .ok none => .ok st
  | .ok (some d) =>
    if d.isEmpty then .ok st else .ok (storeSet st key (dictUpdate d ser))

/-- Embedding of `Base.update` with its `@retry(HTTPError, ..., tries=RETRY_COUNT)`
decorator, the store fetch represented by an attempt-indexed oracle. -/
def updateRetried (fetch : Nat → Except StoreFail (Option Doc)) (r : Base)
    (st : Store) : Except PyErr Store × Nat :=
  retryRun PyErr.isHttp
    (fun k => updateStep (fetch k) (keyString r.id) (serialize r) st) 0 RETRY_COUNT

/-! ## Finder -/

/-- Embedding of `Base.find(record_id)`: fetch `database[record_id]`; a KeyError (absent
id, or a residual deleted shell lacking `"_rev"`) yields `None`; otherwise
the document is deserialized into a fresh record.  `DataValidationError`
raised by `deserialize` is not a KeyError and propagates. -/
def find (st : Store) (recordId : String) : Except PyErr (Option Base) :=
  match lookupStore st recordId with
  | none => .ok none
  | some d =>
    match lookupDoc d "_rev" with
    | none => .ok none
    | some _ =>
      match deserialize freshBase (some d) with
      | .ok b => .ok (some b)
      | .error e => .error e

/-! ## Credential resolution and `init_db` -/

/-- One entry of the parsed `VCAP_SERVICES` JSON: a service name and the
`credentials` object of its first instance (`vcap_services[service][0]["credentials"]`,
the only part of the JSON the code reads). -/
structure VcapService where
  name : String
  credentials : Doc
  deriving DecidableEq, Repr

/-- The environment state `init_db` reads: the two structured binding
variables (absent when the variable is unset) and the three scalar
`CLOUDANT_xxx` variables read at module import (absent when unset, in
which case the hardcoded defaults apply). -/
structure Env where
  vcap : Option (List VcapService)
  binding : Option Doc
  host : Option String
  username : Option String
  password : Option String
  deriving DecidableEq, Repr

/-- The test `service.startswith("cloudantNoSQLDB")`, expressed over the character
list so it reduces definitionally. -/
def strStartsWith (s pre : String) : Bool :=
  pre.data.isPrefixOf s.data

/-- Embedding of `Base.__check_for_cloud_foundry_binding`: starting from `{}`, scan the
services of `VCAP_SERVICES` (when set) and take the credentials of every
service whose name starts with `"cloudantNoSQLDB"` (the last match wins). -/
def checkForCloudFoundryBinding (e : Env) : Doc :=
  match e.vcap with
  | none => []
  | some services =>
    services.foldl
      (fun acc s => if strStartsWith s.name "cloudantNoSQLDB" then s.credentials else acc)
      []

/-- Embedding of `Base.__check_for_kubernetes_binding`: the parsed `BINDING_CLOUDANT`
JSON when that variable is set, else `{}`. -/
def checkForKubernetesBinding (e : Env) : Doc :=
  match e.binding with
  | none => []
  | some d => d

/-- Embedding of `Base.__check_for_local_binding`: username, password and host from the
`CLOUDANT_xxx` environment variables with defaults `"admin"`, `"pass"`,
`"localhost"`; port fixed at `5984`; url derived as `http://` + host +
`:5984/`. -/
def checkForLocalBinding (e : Env) : Doc :=
  [("username", .vstr (e.username.getD "admin")),
   ("password", .vstr (e.password.getD "pass")),
   ("host", .vstr (e.host.getD "localhost")),
   ("port", .vnum 5984),
   ("url", .vstr ("http://" ++ e.host.getD "localhost" ++ ":5984/"))]

/-- The resolution chain of `Base.init_db`: Cloud Foundry first, then
Kubernetes when that produced a falsy (empty) dict, then the local
defaults when both did. -/
def resolveCreds (e : Env) : Doc :=
  let opts := checkForCloudFoundryBinding e
  let opts := if opts.isEmpty then checkForKubernetesBinding e else opts
  if opts.isEmpty then checkForLocalBinding e else opts

/-- The five keys `init_db` requires of the resolved options. -/
def requiredKeys : List String := ["host", "username", "password", "port", "url"]

/-- Embedding of `Base.init_db` up to and including its validation gate: resolve the
credentials, raise `DatabaseConnectionError` when any required key is
missing, and only otherwise hand the options to the connection stage
(the `Cloudant(...)` client construction and database binding, represented
by the oracle `connect`). -/
def initDb (e : Env) (connect : Doc → Except PyErr Unit) : Except PyErr Unit :=
  let opts := resolveCreds e
  if requiredKeys.any (fun k => (lookupDoc opts k).isNone) then
    .error (.databaseConnectionError
      "Error - Failed to retrieve options. Check that app is bound to a Cloudant service.")
  else connect opts

/-! ## Helper lemmas -/

theorem retryRun_first_ok {ε α : Type} (p : ε → Bool) (f : Nat → Except ε α)
    (a : α) (start t : Nat) (hf : f start = .ok a) (ht : 1 ≤ t) :
    retryRun p f start t = (.ok a, start + 1) := by
  match t, ht with
  | 1, _ => simp [retryRun, hf]
  | n + 2, _ => simp [retryRun, hf]

theorem retryRun_error_no_retry {ε α : Type} (p : ε → Bool) (f : Nat → Except ε α)
    (e : ε) (start t : Nat) (hf : f start = .error e) (hp : p e = false)
    (ht : 1 ≤ t) : retryRun p f start t = (.error e, start + 1) := by
  match t, ht with
  | 1, _ => simp [retryRun, hf]
  | n + 2, _ => simp [retryRun, hf, hp]

theorem retryRun_error_exhausts {ε α : Type} (p : ε → Bool) (f : Nat → Except ε α)
    (e : ε) (h : ∀ k, f k = .error e) (hp : p e = true) :
    ∀ t start, 1 ≤ t → retryRun p f start t = (.error e, start + t) := by
  intro t
  induction t using Nat.strong_induction_on with
  | _ t ih =>
    intro start ht
    match t with
    | 1 => simp [retryRun, h start]
    | n + 2 =>
      have hrec := ih (n + 1) (by omega) (start + 1) (by omega)
      simp [retryRun, h start, hp, hrec]
      omega

theorem retryRun_pred {ε α : Type} (Q : Except ε α → Prop) (p : ε → Bool)
    (f : Nat → Except ε α) (h : ∀ k, Q (f k)) :
    ∀ t start, Q (retryRun p f start t).1 := by
  intro t
  induction t using Nat.strong_induction_on with
  | _ t ih =>
    intro start
    match t with
    | 0 => simpa [retryRun] using h start
    | 1 => simpa [retryRun] using h start
    | n + 2 =>
      cases hf : f start with
      | ok a =>
        simpa [retryRun, hf] using hf ▸ h start
      | error e =>
        by_cases hp : p e = true
        · simpa [retryRun, hf, hp] using ih (n + 1) (by omega) (start + 1)
        · simp only [Bool.not_eq_true] at hp
          simpa [retryRun, hf, hp] using hf ▸ h start

theorem lookupStore_storeRemove (st : Store) (k : String) :
    lookupStore (storeRemove st k) k = none := by
  have h : (st.filter (fun e => !(e.1 == k))).find? (fun e => e.1 == k) = none := by
    rw [List.find?_eq_none]
    intro x hx
    have hm := (List.mem_filter.mp hx).2
    simpa using hm
  unfold lookupStore storeRemove
  rw [h]
  rfl

/-! ## Claim theorems -/

/-- Claim C1: for every resolved credential set missing at least one of the
five required fields (host, username, password, port, url), `init_db`
raises `DatabaseConnectionError` (the spec's ConnectionConfigError) before
any connection attempt is made: the outcome is the same for every
connection stage `connect`, which is never consulted. -/
theorem init_db_missing_field_fails (e : Env) (connect : Doc → Except PyErr Unit)
    (k : String) (hk : k ∈ requiredKeys)
    (hmiss : lookupDoc (resolveCreds e) k = none) :
    initDb e connect = .error (.databaseConnectionError
      "Error - Failed to retrieve options. Check that app is bound to a Cloudant service.") := by
  have h : requiredKeys.any (fun q => (lookupDoc (resolveCreds e) q).isNone) = true :=
    List.any_eq_true.mpr ⟨k, hk, by simp [hmiss]⟩
  simp [initDb, h]

/-- Witness for C1: a Cloud Foundry binding whose credentials lack `host`
makes `init_db` fail with `DatabaseConnectionError`, whatever the
connection stage would do. -/
theorem init_db_missing_field_fails_witness :
    initDb
      { vcap := some [⟨"cloudantNoSQLDB-dev",
          [("username", .vstr "u"), ("password", .vstr "p"),
           ("port", .vnum 443), ("url", .vstr "https://h/")]⟩],
        binding := none, host := none, username := none, password := none }
      (fun _ => .ok ())
      = .error (.databaseConnectionError
          "Error - Failed to retrieve options. Check that app is bound to a Cloudant service.") :=
  init_db_missing_field_fails _ _ "host" (by decide) (by decide)

/-- Claim C9: the resolver probes Cloud Foundry `VCAP_SERVICES`, then the
`BINDING_CLOUDANT` direct-credentials variable, then the local/default
source, in that order, returning the first non-empty result; the local
source yields username, password and host from the environment with
hardcoded defaults, the fixed default port 5984, and the derived URL
`http://` + host + `:5984/`. -/
theorem resolver_priority_and_local_defaults (e : Env) :
    (checkForCloudFoundryBinding e ≠ [] →
      resolveCreds e = checkForCloudFoundryBinding e) ∧
    (checkForCloudFoundryBinding e = [] → checkForKubernetesBinding e ≠ [] →
      resolveCreds e = checkForKubernetesBinding e) ∧
    (checkForCloudFoundryBinding e = [] → checkForKubernetesBinding e = [] →
      resolveCreds e = checkForLocalBinding e) ∧
    lookupDoc (checkForLocalBinding e) "username" = some (.vstr (e.username.getD "admin")) ∧
    lookupDoc (checkForLocalBinding e) "password" = some (.vstr (e.password.getD "pass")) ∧
    lookupDoc (checkForLocalBinding e) "host" = some (.vstr (e.host.getD "localhost")) ∧
    lookupDoc (checkForLocalBinding e) "port" = some (.vnum 5984) ∧
    lookupDoc (checkForLocalBinding e) "url" =
      some (.vstr ("http://" ++ e.host.getD "localhost" ++ ":5984/")) := by
  refine ⟨?_, ?_, ?_, rfl, rfl, rfl, rfl, rfl⟩
  · intro h
    simp [resolveCreds, List.isEmpty_iff, h]
  · intro h1 h2
    simp [resolveCreds, List.isEmpty_iff, h1, h2]
  · intro h1 h2
    simp [resolveCreds, List.isEmpty_iff, h1, h2]

/-- Witness for C9: with no platform bindings set, resolution falls through
to the local defaults, whose port is 5984. -/
theorem resolver_priority_witness :
    resolveCreds { vcap := none, binding := none,
                   host := none, username := none, password := none } =
      checkForLocalBinding { vcap := none, binding := none,
                             host := none, username := none, password := none } ∧
    lookupDoc (checkForLocalBinding { vcap := none, binding := none,
                                      host := none, username := none, password := none })
      "port" = some (.vnum 5984) :=
  ⟨(resolver_priority_and_local_defaults _).2.2.1 rfl rfl,
   (resolver_priority_and_local_defaults _).2.2.2.2.2.2.1⟩

/-- Claim C2 counterexample: with a store whose `create_document` raises
`HTTPError` on every attempt, `create()` on a named record returns normally
after exactly one attempt — the error is caught inside the function body,
so the retry wrapper never observes it and no retries happen, contradicting
the claim that the error is retried up to the configured bound
(`RETRY_COUNT = 10`) before being downgraded. -/
theorem create_http_counterexample :
    createRetried (fun _ => .error .httpError) { id := .vnone, name := .vstr "rex" }
      = (.ok { id := .vnone, name := .vstr "rex" }, 1) ∧ 1 ≠ RETRY_COUNT := by
  exact ⟨rfl, by decide⟩

/-- Claim C2 amended: for `create()` on a record with its name set, when the
store call raises the transient transport error class, the error is caught
inside `create` on the very first attempt (the retry wrapper never observes
it, so no retries occur) and downgraded to a logged no-op — `create()`
returns normally without raising and the record, its id included, is left
exactly as it was. -/
theorem create_swallows_http_first_attempt (r : Base)
    (oracle : Nat → Except StoreFail CreatedDoc)
    (hname : r.name ≠ .vnone)
    (hfail : ∀ k, oracle k = .error .httpError) :
    createRetried oracle r = (.ok r, 1) := by
  apply retryRun_first_ok
  · rw [hfail 0]
    simp [createStep, hname]
  · decide

/-- Witness for the amended C2: a concrete named record against an
always-failing store. -/
theorem create_swallows_http_witness :
    createRetried (fun _ => .error .httpError) { id := .vnone, name := .vstr "fido" }
      = (.ok { id := .vnone, name := .vstr "fido" }, 1) :=
  create_swallows_http_first_attempt _ _ (by decide) (fun _ => rfl)

/-- Claim C3: for a ResiliencePolicy-wrapped operation other than create,
here `update()`: when the store fetch raises the transient transport class
on every invocation, the operation re-raises that error after exactly
`RETRY_COUNT` attempts; an error outside that class propagates after a
single attempt, with no retry. -/
theorem update_retry_exhaustion_and_no_retry_on_other
    (fetch : Nat → Except StoreFail (Option Doc)) (r : Base) (st : Store) :
    ((∀ k, fetch k = .error .httpError) →
      updateRetried fetch r st = (.error .httpError, RETRY_COUNT)) ∧
    (fetch 0 = .error .otherError →
      updateRetried fetch r st = (.error .otherError, 1)) := by
  constructor
  · intro hfail
    have h := retryRun_error_exhausts PyErr.isHttp
      (fun k => updateStep (fetch k) (keyString r.id) (serialize r) st)
      PyErr.httpError
      (fun k => by simp only [hfail k]; rfl) rfl RETRY_COUNT 0 (by decide)
    simpa [updateRetried] using h
  · intro hfail
    have h := retryRun_error_no_retry PyErr.isHttp
      (fun k => updateStep (fetch k) (keyString r.id) (serialize r) st)
      PyErr.otherError 0 RETRY_COUNT
      (by simp only [hfail]; rfl) rfl (by decide)
    simpa [updateRetried] using h

/-- Witness for C3: an always-HTTPError fetch exhausts all 10 attempts and
re-raises; a first-attempt non-transient error propagates after one attempt. -/
theorem update_retry_witness :
    updateRetried (fun _ => .error .httpError)
        { id := .vstr "a", name := .vstr "rex" } [] = (.error .httpError, RETRY_COUNT) ∧
    updateRetried (fun _ => .error .otherError)
        { id := .vstr "a", name := .vstr "rex" } [] = (.error .otherError, 1) :=
  ⟨(update_retry_exhaustion_and_no_retry_on_other _ _ _).1 (fun _ => rfl),
   (update_retry_exhaustion_and_no_retry_on_other _ _ _).2 rfl⟩

/-- Claim C8: `create()` raises `DataValidationError` when the record's name
is `None`; the error carries the record untouched (id still unset), it is
raised on the first attempt before any store call (the outcome is the same
for every store oracle), and when the name is set the result is never a
`DataValidationError`. -/
theorem create_name_validation (r : Base)
    (oracle : Nat → Except StoreFail CreatedDoc) :
    (r.name = .vnone →
      createRetried oracle r
        = (.error (.dataValidationError "name attribute is not set", r), 1)) ∧
    (r.name ≠ .vnone →
      ∀ msg r2, (createRetried oracle r).1
        ≠ .error (.dataValidationError msg, r2)) := by
  constructor
  · intro hname
    apply retryRun_error_no_retry
    · simp [createStep, hname]
    · rfl
    · decide
  · intro hname msg r2
    have hQ : ∀ k,
        (fun x : Except (PyErr × Base) Base =>
          ∀ m rr, x ≠ .error (PyErr.dataValidationError m, rr))
          (createStep r (oracle k)) := by
      intro k m rr
      unfold createStep
      rw [if_neg hname]
      cases oracle k with
      | ok d => by_cases hd : d.docExists = true <;> simp [hd]
      | error sf => cases sf <;> simp
    exact retryRun_pred
      (Q := fun x => ∀ m rr, x ≠ .error (PyErr.dataValidationError m, rr))
      (fun e => e.1.isHttp)
      (fun k => createStep r (oracle k)) hQ RETRY_COUNT 0 msg r2

/-- Witness for C8: a nameless record fails validation with its id left
unset regardless of the store; a named record never yields a validation
error, shown here with a store that always raises the non-retryable class. -/
theorem create_name_validation_witness :
    createRetried (fun _ => .error .otherError) { id := .vnone, name := .vnone }
      = (.error (.dataValidationError "name attribute is not set",
                 { id := .vnone, name := .vnone }), 1) ∧
    ∀ msg r2,
      (createRetried (fun _ => .error .otherError)
        { id := .vnone, name := .vstr "rex" }).1
        ≠ .error (.dataValidationError msg, r2) :=
  ⟨(create_name_validation _ _).1 rfl,
   (create_name_validation _ _).2 (by decide)⟩

/-- Claim C4: `find(record_id)` returns none when the store has no document
for the id, and also when the stored document lacks a `_rev` revision token
(a residual deleted shell), never a present-but-empty record; in particular
a `find` on a record's id right after `delete()` returns none. -/
theorem find_absent_or_shell_is_none (st : Store) (recordId : String) :
    (lookupStore st recordId = none → find st recordId = .ok none) ∧
    (∀ d, lookupStore st recordId = some d → lookupDoc d "_rev" = none →
      find st recordId = .ok none) ∧
    (∀ (r : Base) i, r.id = .vstr i → find ((delete st r).1) i = .ok none) := by
  refine ⟨?_, ?_, ?_⟩
  · intro h
    simp [find, h]
  · intro d hd hrev
    simp [find, hd, hrev]
  · intro r i hid
    cases hlook : lookupStore st i with
    | none => simp [delete, lookupStoreV, hid, hlook, find]
    | some d =>
      by_cases hemp : d.isEmpty = true
      · have hnil : d = [] := List.isEmpty_iff.mp hemp
        simp [delete, lookupStoreV, hid, hlook, hemp, find, hnil, lookupDoc]
      · simp [delete, lookupStoreV, hid, hlook, hemp, keyString, find,
          lookupStore_storeRemove]

/-- Witness for C4: a stored shell document without `_rev` is not found,
and a find on a deleted record's id is not found. -/
theorem find_absent_or_shell_witness :
    find [("a", [("_id", .vstr "a"), ("name", .vstr "x")])] "a" = .ok none ∧
    find ((delete [("b", [("_id", .vstr "b"), ("_rev", .vstr "1-z"), ("name", .vstr "y")])]
            { id := .vstr "b", name := .vstr "y" }).1) "b" = .ok none :=
  ⟨(find_absent_or_shell_is_none _ _).2.1 _ rfl rfl,
   (find_absent_or_shell_is_none
     [("b", [("_id", .vstr "b"), ("_rev", .vstr "1-z"), ("name", .vstr "y")])] "b").2.2
     _ "b" rfl⟩

/-- Claim C5: deserializing `serialize(r)` into a fresh record reconstructs
the domain field `name`; when `r`'s id was assigned (truthy) before
serializing, the identity round-trips too, and `serialize` emits `_id`
exactly when the id is assigned. -/
theorem serialize_deserialize_roundtrip (r : Base) :
    (∃ r2, deserialize freshBase (some (serialize r)) = .ok r2 ∧ r2.name = r.name) ∧
    (r.id.truthy = true → deserialize freshBase (some (serialize r)) = .ok r) ∧
    lookupDoc (serialize r) "_id" = (if r.id.truthy then some r.id else none) := by
  obtain ⟨i, n⟩ := r
  have hv : Val.vnone.truthy = false := rfl
  by_cases h : Val.truthy i <;>
    simp [serialize, deserialize, freshBase, lookupDoc, h, hv]

/-- Witness and counterpart check for C5 on a record whose id was assigned
before serializing: the round-trip restores it exactly. -/
theorem serialize_deserialize_roundtrip_witness :
    deserialize freshBase (some (serialize { id := .vstr "k9", name := .vstr "rex" }))
      = .ok { id := .vstr "k9", name := .vstr "rex" } :=
  (serialize_deserialize_roundtrip _).2.1 rfl

/-- Claim C6: `deserialize(doc)` raises `DataValidationError` exactly when
the required `name` field is absent or the input is not a mapping at all
(`None`); otherwise it returns (fluently) the mutated record with `name`
taken from the document and the document's `_id` adopted only when the
record's own id is falsy. -/
theorem deserialize_validation_iff (r : Base) (data : Option Doc) :
    ((∃ msg, deserialize r data = .error (.dataValidationError msg)) ↔
      (data = none ∨ ∃ d, data = some d ∧ lookupDoc d "name" = none)) ∧
    (∀ d v, data = some d → lookupDoc d "name" = some v →
      deserialize r data =
        .ok { r with name := v,
                     id := if r.id.truthy then r.id
                           else (lookupDoc d "_id").getD r.id }) := by
  constructor
  · cases data with
    | none => simp [deserialize]
    | some d =>
      cases hn : lookupDoc d "name" with
      | none => simp [deserialize, hn]
      | some v => simp [deserialize, hn]
  · intro d v hd hv
    subst hd
    cases hid : lookupDoc d "_id" with
    | none =>
      by_cases h : r.id.truthy <;> simp [deserialize, hv, hid, h]
    | some j =>
      by_cases h : r.id.truthy <;> simp [deserialize, hv, hid, h]

/-- Witness for C6: a well-formed document populates name and the fresh
record adopts its `_id`; an empty document raises `DataValidationError`,
as does a non-mapping (`None`) body. -/
theorem deserialize_validation_witness :
    deserialize freshBase (some [("name", .vstr "rex"), ("_id", .vstr "z1")])
      = .ok { id := .vstr "z1", name := .vstr "rex" } ∧
    (∃ msg, deserialize freshBase (some [])
      = .error (.dataValidationError msg)) ∧
    (∃ msg, deserialize freshBase none = .error (.dataValidationError msg)) :=
  ⟨(deserialize_validation_iff freshBase _).2 _ _ rfl rfl,
   (deserialize_validation_iff freshBase (some [])).1.mpr (Or.inr ⟨[], rfl, rfl⟩),
   (deserialize_validation_iff freshBase none).1.mpr (Or.inl rfl)⟩

/-- Claim C7: on a record whose id has no backing document, `update()` and
`delete()` are silent no-ops — the store is unchanged and the decorated
operation completes without an exception (shown for update through the
retried form with the caught-KeyError fetch outcome); when the backing
document does exist (a truthy, non-empty dict), `update()` merges the
current serialized fields into it and saves it back under the record's id,
and `delete()` removes it. -/
theorem update_delete_noop_and_effect (st : Store) (r : Base) (i : String)
    (hid : r.id = .vstr i) :
    (lookupStore st i = none →
      (update st r).1 = st ∧ (delete st r).1 = st ∧
      updateRetried (fun _ => .ok none) r st = (.ok st, 1)) ∧
    (∀ d, lookupStore st i = some d → d.isEmpty = false →
      (update st r).1 = storeSet st i (dictUpdate d (serialize r)) ∧
      (delete st r).1 = storeRemove st i) := by
  constructor
  · intro h
    refine ⟨?_, ?_, ?_⟩
    · simp [update, lookupStoreV, hid, h]
    · simp [delete, lookupStoreV, hid, h]
    · exact retryRun_first_ok _ _ _ 0 RETRY_COUNT rfl (by decide)
  · intro d hd hemp
    constructor
    · simp [update, lookupStoreV, hid, hd, hemp, keyString]
    · simp [delete, lookupStoreV, hid, hd, hemp, keyString]

/-- Witness for C7: a record with no backing document leaves the store as
it was; a record with a backing document gets it merged-and-saved by
update and removed by delete. -/
theorem update_delete_noop_and_effect_witness :
    (update [] { id := .vstr "zz", name := .vstr "rex" }).1 = [] ∧
    (delete [] { id := .vstr "zz", name := .vstr "rex" }).1 = [] ∧
    (update [("a", [("_id", .vstr "a"), ("_rev", .vstr "1-q"), ("name", .vstr "old")])]
        { id := .vstr "a", name := .vstr "new" }).1
      = storeSet [("a", [("_id", .vstr "a"), ("_rev", .vstr "1-q"), ("name", .vstr "old")])]
          "a" (dictUpdate [("_id", .vstr "a"), ("_rev", .vstr "1-q"), ("name", .vstr "old")]
                 (serialize { id := .vstr "a", name := .vstr "new" })) ∧
    (delete [("a", [("_id", .vstr "a"), ("_rev", .vstr "1-q"), ("name", .vstr "old")])]
        { id := .vstr "a", name := .vstr "new" }).1
      = storeRemove [("a", [("_id", .vstr "a"), ("_rev", .vstr "1-q"), ("name", .vstr "old")])] "a" :=
  ⟨((update_delete_noop_and_effect [] _ "zz" rfl).1 rfl).1,
   ((update_delete_noop_and_effect [] _ "zz" rfl).1 rfl).2.1,
   ((update_delete_noop_and_effect
       [("a", [("_id", .vstr "a"), ("_rev", .vstr "1-q"), ("name", .vstr "old")])]
       { id := .vstr "a", name := .vstr "new" } "a" rfl).2
     [("_id", .vstr "a"), ("_rev", .vstr "1-q"), ("name", .vstr "old")] rfl rfl).1,
   ((update_delete_noop_and_effect
       [("a", [("_id", .vstr "a"), ("_rev", .vstr "1-q"), ("name", .vstr "old")])]
       { id := .vstr "a", name := .vstr "new" } "a" rfl).2
     [("_id", .vstr "a"), ("_rev", .vstr "1-q"), ("name", .vstr "old")] rfl rfl).2⟩

/-- Claim C10: `update()` and `delete()` leave the in-memory record
unchanged — whether or not a backing document exists, the returned record
state has the same id and name as before the call; only the store side of
the result differs. -/
theorem update_delete_frame (st : Store) (r : Base) :
    (update st r).2.id = r.id ∧ (update st r).2.name = r.name ∧
    (delete st r).2.id = r.id ∧ (delete st r).2.name = r.name :=
  ⟨rfl, rfl, rfl, rfl⟩

end Models
